import Mathlib

set_option maxRecDepth 100000

/-!
Verification development for the products-api-cosmosdb-typescript-vector-search
repository: a shallow embedding of its validation, orchestration and store
layers, with theorems about the behaviour of each request handler.

Conventions of the embedding:
* Runtime JSON values (request bodies, fields) are modelled by the inductive
  type Json below, with a separate constructor for the JavaScript value
  undefined, so that absent object fields can be distinguished.
* JavaScript numbers are modelled by the rationals; claims in scope concern
  integerness, sign and equality of numbers, never floating point rounding.
* Remote calls (the axios embedding call, the Cosmos container operations) are
  oracles passed to each handler as function arguments returning Except values;
  an Except.error models a thrown or rejected promise.
* Each handler returns, together with its HTTP response, the list of embedding
  calls it issued and the store calls it issued, so that statements of the form
  "no store call is made" are directly expressible.  A response of none models
  a handler that terminated by an uncaught exception, sending no response.
-/

/-- Model of a runtime JSON / JavaScript value. -/
inductive Json where
  | null
  | undefined
  | bool (b : Bool)
  | num (q : ℚ)
  | str (s : String)
  | arr (elems : List Json)
  | obj (fields : List (String × Json))

/-- First binding of a key in an object literal. -/
def lookupField : List (String × Json) → String → Option Json
  | [], _ => none
  | (k, v) :: rest, key => if k = key then some v else lookupField rest key

/-- Property access j.key as in the destructurings of the controllers:
undefined when the key is absent or the value is not an object. -/
def getField (j : Json) (key : String) : Json :=
  match j with
  | .obj fs => (lookupField fs key).getD .undefined
  | _ => .undefined

/-- JavaScript truthiness of a value (NaN is not representable in this model). -/
def truthy : Json → Bool
  | .null => false
  | .undefined => false
  | .bool b => b
  | .num q => q ≠ 0
  | .str s => s ≠ ""
  | .arr _ => true
  | .obj _ => true

/-- Model of Number.isInteger: true exactly on number values without a
fractional part. -/
def isIntegerJs : Json → Bool
  | .num q => q.den = 1
  | _ => false

/-- Numeric reading of a value, used only under a guard that established the
value is a number. -/
def numOf : Json → ℚ
  | .num q => q
  | _ => 0

/-- Comparison v > 0, used only under the guard Number.isInteger(v). -/
def gtZeroJs : Json → Bool
  | .num q => 0 < q
  | _ => false

/-- The expression top && Number.isInteger(top) && top > 0 ? top : 10 shared
verbatim by the three vector search handlers. -/
def topResultsOf (top : Json) : ℚ :=
  if truthy top && isIntegerJs top && gtZeroJs top then numOf top else 10

/-- Lowercase hexadecimal digit for a nibble. -/
def hexChar (n : Nat) : Char :=
  if n < 10 then Char.ofNat (48 + n) else Char.ofNat (87 + n)

/-- Hexadecimal digit recognizer, as in the UUID shape check. -/
def isHexDigit (c : Char) : Bool :=
  (('0' ≤ c) && (c ≤ '9')) || (('a' ≤ c) && (c ≤ 'f')) || (('A' ≤ c) && (c ≤ 'F'))

/-- High hexadecimal digit of a byte. -/
def byteHexHi (b : Nat) : Char := hexChar (b / 16 % 16)

/-- Low hexadecimal digit of a byte. -/
def byteHexLo (b : Nat) : Char := hexChar (b % 16)

/-- Modelled from the spec: the shape productIDSchema enforces through the
string uuid validator of the zod library (the library itself is outside this
repository).  A well-formed UUID is five hyphen-separated groups of
hexadecimal digits of lengths 8, 4, 4, 4 and 12. -/
def isUUID (s : String) : Bool :=
  match s.data with
  | a0 :: a1 :: a2 :: a3 :: a4 :: a5 :: a6 :: a7 :: h0 ::
    b0 :: b1 :: b2 :: b3 :: h1 ::
    c0 :: c1 :: c2 :: c3 :: h2 ::
    d0 :: d1 :: d2 :: d3 :: h3 ::
    e0 :: e1 :: e2 :: e3 :: e4 :: e5 :: e6 :: e7 :: e8 :: e9 :: e10 :: e11 :: [] =>
    (h0 = '-' && h1 = '-' && h2 = '-' && h3 = '-') &&
    ([a0, a1, a2, a3, a4, a5, a6, a7,
      b0, b1, b2, b3, c0, c1, c2, c3, d0, d1, d2, d3,
      e0, e1, e2, e3, e4, e5, e6, e7, e8, e9, e10, e11].all isHexDigit)
  | _ => false

/-- Modelled from the spec: the uuid library v4 generator used by the create
handler (external to this repository).  Sixteen random bytes are formatted as
lowercase hexadecimal in groups 8-4-4-4-12; the version nibble is forced to 4
and the variant nibble to the range 8..b, exactly as the v4 layout demands. -/
def uuidv4 (bytes : List Nat) : String :=
  match bytes with
  | [b0, b1, b2, b3, b4, b5, b6, b7, b8, b9, b10, b11, b12, b13, b14, b15] =>
    String.mk
      [byteHexHi b0, byteHexLo b0, byteHexHi b1, byteHexLo b1,
       byteHexHi b2, byteHexLo b2, byteHexHi b3, byteHexLo b3, '-',
       byteHexHi b4, byteHexLo b4, byteHexHi b5, byteHexLo b5, '-',
       '4', byteHexLo b6, byteHexHi b7, byteHexLo b7, '-',
       hexChar (8 + b8 % 64 / 16), byteHexLo b8, byteHexHi b9, byteHexLo b9, '-',
       byteHexHi b10, byteHexLo b10, byteHexHi b11, byteHexLo b11,
       byteHexHi b12, byteHexLo b12, byteHexHi b13, byteHexLo b13,
       byteHexHi b14, byteHexLo b14, byteHexHi b15, byteHexLo b15]
  | _ => ""

/-- A single zod validation issue: path of the offending field and a human
readable message. -/
structure Issue where
  path : List String
  msg : String
deriving DecidableEq

/-- Issues carried by a validation outcome; empty on success. -/
def errsOf {α : Type} : Except (List Issue) α → List Issue
  | .ok _ => []
  | .error es => es

/-- Issue-accumulating applicative combination, mirroring how zod object
parsing collects the issues of every field instead of stopping at the first
failing one. -/
def ap {α β : Type} (f : Except (List Issue) (α → β)) (x : Except (List Issue) α) :
    Except (List Issue) β :=
  match f, x with
  | .ok g, .ok a => .ok (g a)
  | .ok _, .error es => .error es
  | .error es, .ok _ => .error es
  | .error es, .error es2 => .error (es ++ es2)

/-- Required string field of a zod object schema; pre is the path prefix used
for nested objects. -/
def reqStr (pre : List String) (fs : List (String × Json)) (name : String) :
    Except (List Issue) String :=
  match lookupField fs name with
  | none => .error [⟨pre ++ [name], "Required"⟩]
  | some .undefined => .error [⟨pre ++ [name], "Required"⟩]
  | some (.str s) => .ok s
  | some _ => .error [⟨pre ++ [name], "Expected string"⟩]

/-- Required number field of a zod object schema. -/
def reqNum (fs : List (String × Json)) (name : String) : Except (List Issue) ℚ :=
  match lookupField fs name with
  | none => .error [⟨[name], "Required"⟩]
  | some .undefined => .error [⟨[name], "Required"⟩]
  | some (.num q) => .ok q
  | some _ => .error [⟨[name], "Expected number"⟩]

/-- Element-wise parse of an array of strings, collecting one indexed issue
per non-string element as zod does. -/
def parseStrElems (name : String) : Nat → List Json → Except (List Issue) (List String)
  | _, [] => .ok []
  | i, j :: rest =>
    ap (ap (Except.ok List.cons)
        (match j with
         | .str s => Except.ok s
         | _ => Except.error [⟨[name, toString i], "Expected string"⟩]))
      (parseStrElems name (i + 1) rest)

/-- Required array-of-strings field. -/
def reqStrArray (fs : List (String × Json)) (name : String) :
    Except (List Issue) (List String) :=
  match lookupField fs name with
  | none => .error [⟨[name], "Required"⟩]
  | some .undefined => .error [⟨[name], "Required"⟩]
  | some (.arr xs) => parseStrElems name 0 xs
  | some _ => .error [⟨[name], "Expected array"⟩]

/-- Element-wise parse of an array of numbers. -/
def parseNumElems (name : String) : Nat → List Json → Except (List Issue) (List ℚ)
  | _, [] => .ok []
  | i, j :: rest =>
    ap (ap (Except.ok List.cons)
        (match j with
         | .num q => Except.ok q
         | _ => Except.error [⟨[name, toString i], "Expected number"⟩]))
      (parseNumElems name (i + 1) rest)

/-- Optional array-of-numbers field (the derived vectors). -/
def optNumArray (fs : List (String × Json)) (name : String) :
    Except (List Issue) (Option (List ℚ)) :=
  match lookupField fs name with
  | none => .ok none
  | some .undefined => .ok none
  | some (.arr xs) => (parseNumElems name 0 xs).map some
  | some _ => .error [⟨[name], "Expected array"⟩]

/-- Optional string field that must be a well-formed UUID when present. -/
def optUuid (fs : List (String × Json)) (name : String) :
    Except (List Issue) (Option String) :=
  match lookupField fs name with
  | none => .ok none
  | some .undefined => .ok none
  | some (.str s) => if isUUID s then .ok (some s) else .error [⟨[name], "Invalid uuid"⟩]
  | some _ => .error [⟨[name], "Expected string"⟩]

/-- Scanner for the :// separator followed by a nonempty remainder. -/
def hasSchemeSep : List Char → Bool
  | ':' :: '/' :: '/' :: rest => !rest.isEmpty
  | _ :: rest => hasSchemeSep rest
  | [] => false

/-- Modelled from the spec: the zod string url validator (the URL parser lives
in the runtime library, outside this repository).  A well-formed URL is taken
to be scheme://remainder with both parts nonempty. -/
def isURL (s : String) : Bool :=
  match s.data with
  | [] => false
  | c :: rest => (c != ':') && hasSchemeSep (c :: rest)

/-- Required string field that must be a well-formed URL. -/
def reqUrl (fs : List (String × Json)) (name : String) : Except (List Issue) String :=
  match lookupField fs name with
  | none => .error [⟨[name], "Required"⟩]
  | some .undefined => .error [⟨[name], "Required"⟩]
  | some (.str s) => if isURL s then .ok s else .error [⟨[name], "Invalid url"⟩]
  | some _ => .error [⟨[name], "Expected string"⟩]

/-- The nested dimensions object of productSchema. -/
structure Dimensions where
  weight : String
  width : String
  height : String
  depth : String
deriving DecidableEq

/-- Parse of the dimensions object value. -/
def dimsParse (v : Json) : Except (List Issue) Dimensions :=
  match v with
  | .obj dfs =>
    ap (ap (ap (ap (Except.ok Dimensions.mk)
      (reqStr ["dimensions"] dfs "weight"))
      (reqStr ["dimensions"] dfs "width"))
      (reqStr ["dimensions"] dfs "height"))
      (reqStr ["dimensions"] dfs "depth")
  | _ => .error [⟨["dimensions"], "Expected object"⟩]

/-- Optional dimensions field. -/
def optDims (fs : List (String × Json)) : Except (List Issue) (Option Dimensions) :=
  match lookupField fs "dimensions" with
  | none => .ok none
  | some .undefined => .ok none
  | some v => (dimsParse v).map some

/-- The Product record, with fields in the order productSchema declares them. -/
structure Product where
  id : Option String
  name : String
  brand : String
  sku : String
  category : String
  price : ℚ
  currency : String
  stock : ℚ
  description : String
  features : String
  rating : ℚ
  reviewsCount : ℚ
  tags : List String
  imageUrl : String
  manufacturer : String
  model : String
  releaseDate : String
  warranty : String
  dimensions : Option Dimensions
  color : String
  material : String
  origin : String
  descriptionVector : Option (List ℚ)
  imageVector : Option (List ℚ)
  tagsVector : Option (List ℚ)
  featuresVector : Option (List ℚ)
  dimensionsVector : Option (List ℚ)
deriving DecidableEq

/-- productSchema.safeParse: every field of the body is checked and all issues
are accumulated; success yields the parsed Product. -/
def productSafeParse (j : Json) : Except (List Issue) Product :=
  match j with
  | .obj fs =>
    let r01 := ap (Except.ok Product.mk) (optUuid fs "id")
    let r02 := ap r01 (reqStr [] fs "name")
    let r03 := ap r02 (reqStr [] fs "brand")
    let r04 := ap r03 (reqStr [] fs "sku")
    let r05 := ap r04 (reqStr [] fs "category")
    let r06 := ap r05 (reqNum fs "price")
    let r07 := ap r06 (reqStr [] fs "currency")
    let r08 := ap r07 (reqNum fs "stock")
    let r09 := ap r08 (reqStr [] fs "description")
    let r10 := ap r09 (reqStr [] fs "features")
    let r11 := ap r10 (reqNum fs "rating")
    let r12 := ap r11 (reqNum fs "reviewsCount")
    let r13 := ap r12 (reqStrArray fs "tags")
    let r14 := ap r13 (reqUrl fs "imageUrl")
    let r15 := ap r14 (reqStr [] fs "manufacturer")
    let r16 := ap r15 (reqStr [] fs "model")
    let r17 := ap r16 (reqStr [] fs "releaseDate")
    let r18 := ap r17 (reqStr [] fs "warranty")
    let r19 := ap r18 (optDims fs)
    let r20 := ap r19 (reqStr [] fs "color")
    let r21 := ap r20 (reqStr [] fs "material")
    let r22 := ap r21 (reqStr [] fs "origin")
    let r23 := ap r22 (optNumArray fs "descriptionVector")
    let r24 := ap r23 (optNumArray fs "imageVector")
    let r25 := ap r24 (optNumArray fs "tagsVector")
    let r26 := ap r25 (optNumArray fs "featuresVector")
    ap r26 (optNumArray fs "dimensionsVector")
  | _ => .error [⟨[], "Expected object"⟩]

/-- tagsSchema.safeParse: an object whose tags field is an array of strings. -/
def tagsSafeParse (j : Json) : Except (List Issue) (List String) :=
  match j with
  | .obj fs => reqStrArray fs "tags"
  | _ => .error [⟨[], "Expected object"⟩]

/-- featuresSchema.safeParse: declared separately in the source with a body
identical to tagsSchema. -/
def featuresSafeParse (j : Json) : Except (List Issue) (List String) :=
  match j with
  | .obj fs => reqStrArray fs "tags"
  | _ => .error [⟨[], "Expected object"⟩]

/-- Rendering of issues done by the create handler: err.path.join with dots
next to the message. -/
def renderIssues (issues : List Issue) : List (String × String) :=
  issues.map fun i => (String.intercalate "." i.path, i.msg)

/-- Error response body shapes the controllers produce: a single generic
message, or the per-field list built from zod issues. -/
inductive ErrBody where
  | message (m : String)
  | fieldErrors (errors : List (String × String))
deriving DecidableEq

/-- Responses of the create handler. -/
inductive CreateResp where
  | created (data : Product)
  | invalid (body : ErrBody)
  | failure (body : ErrBody)
deriving DecidableEq

/-- HTTP status code of a create response. -/
def CreateResp.status : CreateResp → Nat
  | .created _ => 201
  | .invalid _ => 400
  | .failure _ => 500

/-- Responses of the get-by-id handler. -/
inductive GetResp where
  | found (data : Product)
  | badRequest (body : ErrBody)
  | notFound (body : ErrBody)
  | failure (body : ErrBody)
deriving DecidableEq

/-- HTTP status code of a get-by-id response. -/
def GetResp.status : GetResp → Nat
  | .found _ => 200
  | .badRequest _ => 400
  | .notFound _ => 404
  | .failure _ => 500

/-- Responses of the three vector search handlers; the result rows coming back
from the store are opaque documents. -/
inductive SearchResp where
  | results (data : List Json)
  | badRequest (body : ErrBody)
  | failure (body : ErrBody)

/-- HTTP status code of a search response. -/
def SearchResp.status : SearchResp → Nat
  | .results _ => 200
  | .badRequest _ => 400
  | .failure _ => 500

/-- Error thrown by the Cosmos SDK, carrying the status code that the service
layer inspects. -/
structure CosmosErr where
  code : Nat
deriving DecidableEq

/-- Instrumented outcome of a search handler: the response sent (none when an
uncaught rejection escaped the handler), the embedding inputs sent to the
embedding endpoint, and the (queryVector, top) pairs sent to the store. -/
structure SearchOut where
  response : Option SearchResp
  embedCalls : List Json
  storeCalls : List (List ℚ × ℚ)

/-- Instrumented outcome of the create handler. -/
structure CreateOut where
  response : Option CreateResp
  embedCalls : List Json
  storeCalls : List Product

/-- Instrumented outcome of the get-by-id handler. -/
structure GetOut where
  response : Option GetResp
  storeCalled : Bool

namespace ProductService

/-- ProductService.getProductById: a point read of the container.  A thrown
error whose code is 404 is converted into the absent signal, every other error
is rethrown.  The readResult argument is the outcome of the underlying
container read: ok (some p) a found document, ok none an absent resource
(undefined in the source), error e a thrown SDK error. -/
def getProductById (readResult : Except CosmosErr (Option Product)) :
    Except CosmosErr (Option Product) :=
  match readResult with
  | .ok r => .ok r
  | .error e => if e.code = 404 then .ok none else .error e

end ProductService

/-- productIDSchema.safeParse on the id path parameter (always a string). -/
def productIDSafeParse (id : String) : Except (List Issue) String :=
  if isUUID id then .ok id else .error [⟨["id"], "Invalid uuid"⟩]

/-- Controller getProductById: validate the id with productIDSchema, then ask
the service and translate its outcome. -/
def getProductById (readResult : Except CosmosErr (Option Product)) (id : String) :
    GetOut :=
  match productIDSafeParse id with
  | .error _ =>
    ⟨some (.badRequest (.message "Invalid product ID, should be a valid UUID")), false⟩
  | .ok goodId =>
    match ProductService.getProductById readResult, goodId with
    | .ok none, _ => ⟨some (.notFound (.message "Product not found")), true⟩
    | .ok (some p), _ => ⟨some (.found p), true⟩
    | .error _, _ => ⟨some (.failure (.message "Internal Server Error")), true⟩

/-- JavaScript falsiness of the optional id after validation: absent or the
empty string. -/
def strFalsy : Option String → Bool
  | none => true
  | some s => s == ""

/-- Third guarded vector-generation step of the create handler: features. -/
def vecStepsFeat (embed : Json → Except String (List ℚ)) (p : Product)
    (log : List Json) : Except String Product × List Json :=
  if p.features ≠ "" then
    match embed (.str p.features) with
    | .error e => (.error e, log ++ [.str p.features])
    | .ok fv => (.ok { p with featuresVector := some fv }, log ++ [.str p.features])
  else (.ok p, log)

/-- Second guarded vector-generation step: tags, joined with single spaces. -/
def vecStepsTags (embed : Json → Except String (List ℚ)) (p : Product)
    (log : List Json) : Except String Product × List Json :=
  if p.tags ≠ [] then
    match embed (.str (String.intercalate " " p.tags)) with
    | .error e => (.error e, log ++ [.str (String.intercalate " " p.tags)])
    | .ok tv =>
      vecStepsFeat embed { p with tagsVector := some tv }
        (log ++ [.str (String.intercalate " " p.tags)])
  else vecStepsFeat embed p log

/-- The three guarded vector-generation steps of the create handler in source
order (description, tags, features), each skipped when its source field is
empty, aborting at the first embedding failure.  Returns the enriched product
or the failure, with the list of embedding inputs actually sent. -/
def vecSteps (embed : Json → Except String (List ℚ)) (p : Product) :
    Except String Product × List Json :=
  if p.description ≠ "" then
    match embed (.str p.description) with
    | .error e => (.error e, [.str p.description])
    | .ok dv => vecStepsTags embed { p with descriptionVector := some dv } [.str p.description]
  else vecStepsTags embed p []

/-- Controller createProduct: validate the body, assign a fresh UUID when the
id is absent, run the three vector-generation steps, then write to the store.
All remote calls sit inside the try block, so any failure yields the generic
500 response. -/
def createProduct (embed : Json → Except String (List ℚ))
    (addProduct : Product → Except CosmosErr Product)
    (uuidBytes : List Nat) (body : Json) : CreateOut :=
  match productSafeParse body with
  | .error issues => ⟨some (.invalid (.fieldErrors (renderIssues issues))), [], []⟩
  | .ok parsed =>
    let p :=
      if strFalsy parsed.id then { parsed with id := some (uuidv4 uuidBytes) } else parsed
    match vecSteps embed p with
    | (.error _, log) => ⟨some (.failure (.message "Internal Server Error")), log, []⟩
    | (.ok enriched, log) =>
      match addProduct enriched with
      | .ok created => ⟨some (.created created), log, [enriched]⟩
      | .error _ => ⟨some (.failure (.message "Internal Server Error")), log, [enriched]⟩

/-- Controller searchProductsByDescriptionVector.  There is no validation of
the query value and the embedding call stands outside the try block in the
source, so an embedding failure escapes the handler: the response is then
none. -/
def searchProductsByDescriptionVector (embed : Json → Except String (List ℚ))
    (search : List ℚ → ℚ → Except CosmosErr (List Json)) (body : Json) : SearchOut :=
  let queryDescription := getField body "queryDescription"
  let top := getField body "top"
  match embed queryDescription with
  | .error _ => ⟨none, [queryDescription], []⟩
  | .ok descriptionVector =>
    let topResults := topResultsOf top
    match search descriptionVector topResults with
    | .ok found =>
      ⟨some (.results found), [queryDescription], [(descriptionVector, topResults)]⟩
    | .error _ =>
      ⟨some (.failure (.message "Internal Server Error")), [queryDescription],
        [(descriptionVector, topResults)]⟩

/-- Controller searchProductsByTagsVector.  The source tests parsedTags.data
for definedness, which on a zod safeParse outcome is extensionally the success
test; the embedding call again stands outside the try block. -/
def searchProductsByTagsVector (embed : Json → Except String (List ℚ))
    (search : List ℚ → ℚ → Except CosmosErr (List Json)) (body : Json) : SearchOut :=
  let queryTags := getField body "queryTags"
  let top := getField body "top"
  match tagsSafeParse (Json.obj [("tags", queryTags)]) with
  | .error _ =>
    ⟨some (.badRequest (.message
      "Invalid tags. It should be an array of strings ie \"queryVector\" : [\"item\",\"item2\"].")),
      [], []⟩
  | .ok tags =>
    let tagsText := String.intercalate " " tags
    match embed (.str tagsText) with
    | .error _ => ⟨none, [.str tagsText], []⟩
    | .ok tagsVector =>
      let topResults := topResultsOf top
      match search tagsVector topResults with
      | .ok found => ⟨some (.results found), [.str tagsText], [(tagsVector, topResults)]⟩
      | .error _ =>
        ⟨some (.failure (.message "Internal Server Error")), [.str tagsText],
          [(tagsVector, topResults)]⟩

/-- Controller searchProductsByFeaturesVector: identical orchestration to the
tags search, validating with featuresSchema against the queryFeatures value. -/
def searchProductsByFeaturesVector (embed : Json → Except String (List ℚ))
    (search : List ℚ → ℚ → Except CosmosErr (List Json)) (body : Json) : SearchOut :=
  let queryFeatures := getField body "queryFeatures"
  let top := getField body "top"
  match featuresSafeParse (Json.obj [("tags", queryFeatures)]) with
  | .error _ =>
    ⟨some (.badRequest (.message
      "Invalid features. It should be an array of strings ie \"queryVector\" : [\"item\",\"item2\"].")),
      [], []⟩
  | .ok tags =>
    let tagsText := String.intercalate " " tags
    match embed (.str tagsText) with
    | .error _ => ⟨none, [.str tagsText], []⟩
    | .ok featuresVector =>
      let topResults := topResultsOf top
      match search featuresVector topResults with
      | .ok found => ⟨some (.results found), [.str tagsText], [(featuresVector, topResults)]⟩
      | .error _ =>
        ⟨some (.failure (.message "Internal Server Error")), [.str tagsText],
          [(featuresVector, topResults)]⟩

namespace CosmosDB

/-- Observable result of one invocation of the initialize method: immediate
return (already initialized) or awaiting the stored in-flight promise with the
given identifier. -/
inductive InitOutcome where
  | immediate
  | awaits (pid : Nat)
deriving DecidableEq

/-- The singleton fields that govern initialization: the initialized flag, the
stored in-flight promise (identified by the number of the init call that
created it) and, for counting, how many init calls were ever issued. -/
structure DBState where
  initializedFlag : Bool
  initializingId : Option Nat
  initCalls : Nat
deriving DecidableEq

/-- One invocation of the initialize method: return at once when initialized;
while an initialization is in flight hand every caller that same stored
promise; otherwise start init, store its promise and hand it out.  Starting
init is the only point where the underlying database and collection creation
calls are issued, so initCalls counts them. -/
def initializeStep (s : DBState) : DBState × InitOutcome :=
  if s.initializedFlag then (s, .immediate)
  else
    match s.initializingId with
    | some pid => (s, .awaits pid)
    | none =>
      ({ s with initializingId := some s.initCalls, initCalls := s.initCalls + 1 },
        .awaits s.initCalls)

/-- Events of the interleaving: a call of the initialize method, resolution of
the in-flight init (which sets the initialized flag), or its rejection (which
changes no field: the source neither clears the stored promise nor resets the
flag, so a failed init is never retried). -/
inductive DBEvent where
  | call
  | complete
  | fail

/-- Single event step; only call events produce an observable outcome. -/
def dbStep (s : DBState) : DBEvent → DBState × Option InitOutcome
  | .call => ((initializeStep s).1, some (initializeStep s).2)
  | .complete =>
    (if s.initializingId.isSome then { s with initializedFlag := true } else s, none)
  | .fail => (s, none)

/-- State of the freshly constructed singleton. -/
def initialState : DBState := ⟨false, none, 0⟩

/-- Run of an arbitrary interleaving of events, collecting the outcomes the
callers observe. -/
def dbRun : DBState → List DBEvent → DBState × List InitOutcome
  | s, [] => (s, [])
  | s, e :: rest =>
    let step := dbStep s e
    let next := dbRun step.1 rest
    (next.1, step.2.toList ++ next.2)

/-- Reachability invariant of the singleton: either no init call was ever
issued and no promise is stored, or exactly one was issued and its promise
(number 0) is the stored one. -/
def Inv (s : DBState) : Prop :=
  (s.initCalls = 0 ∧ s.initializingId = none) ∨
    (s.initCalls = 1 ∧ s.initializingId = some 0)

end CosmosDB

/-- The non-vector, non-id fields of a product, the ones the create handler
never touches. -/
def Product.nonVectorFields (p : Product) :=
  (p.name, p.brand, p.sku, p.category, p.price, p.currency, p.stock, p.description,
   p.features, p.rating, p.reviewsCount, p.tags, p.imageUrl, p.manufacturer, p.model,
   p.releaseDate, p.warranty, p.dimensions, p.color, p.material, p.origin)

/-- The product enriched exactly as the three guarded steps enrich it when
every embedding call succeeds with value ev of its input. -/
def enrichVectors (ev : Json → List ℚ) (p : Product) : Product :=
  { p with
    descriptionVector :=
      if p.description ≠ "" then some (ev (.str p.description)) else p.descriptionVector,
    tagsVector :=
      if p.tags ≠ [] then some (ev (.str (String.intercalate " " p.tags))) else p.tagsVector,
    featuresVector :=
      if p.features ≠ "" then some (ev (.str p.features)) else p.featuresVector }

/-- The embedding inputs the create handler sends for a product, in source
order: the description text, the tags joined with single spaces, the features
text, each only when non-empty. -/
def embedLogOf (p : Product) : List Json :=
  (if p.description ≠ "" then [Json.str p.description] else []) ++
    ((if p.tags ≠ [] then [Json.str (String.intercalate " " p.tags)] else []) ++
      (if p.features ≠ "" then [Json.str p.features] else []))

/-- Fixture: an embedding oracle whose call always fails. -/
def embedFailO : Json → Except String (List ℚ) := fun _ => .error "network failure"

/-- Fixture: the constant embedding value of the always-succeeding oracle. -/
def evConst : Json → List ℚ := fun _ => [1]

/-- Fixture: an embedding oracle that always succeeds with a unit vector. -/
def embedOkO : Json → Except String (List ℚ) := fun j => .ok (evConst j)

/-- Fixture: a search store oracle returning no rows. -/
def searchOkO : List ℚ → ℚ → Except CosmosErr (List Json) := fun _ _ => .ok []

/-- Fixture: a search store oracle that fails with a service error. -/
def searchFailO : List ℚ → ℚ → Except CosmosErr (List Json) := fun _ _ => .error ⟨503⟩

/-- Fixture: a store write oracle echoing the created document, per the store
contract create(product) yields storedProduct. -/
def addOkO : Product → Except CosmosErr Product := fun p => .ok p

/-- Fixture: a store write oracle that fails with a conflict. -/
def addFailO : Product → Except CosmosErr Product := fun _ => .error ⟨409⟩

/-- Fixture: sixteen deterministic random bytes for the UUID generator. -/
def seedBytes : List Nat := [0, 1, 2, 3, 4, 5, 6, 7, 8, 9, 10, 11, 12, 13, 14, 15]

/-- Fixture: a description search request body. -/
def searchBody1 : Json :=
  .obj [("queryDescription", .str "wireless headphones"), ("top", .num 5)]

/-- Fixture: a description search request whose query is not a string. -/
def searchBody2 : Json := .obj [("queryDescription", .num 5)]

/-- Fixture: a tags search request body. -/
def tagsBody1 : Json :=
  .obj [("queryTags", .arr [.str "audio", .str "wireless"])]

/-- Fixture: a features search request body. -/
def featuresBody1 : Json :=
  .obj [("queryFeatures", .arr [.str "noise", .str "cancelling"])]

/-- Fixture: a valid create payload without id, taken from the seed data of the
repository. -/
def validBody : Json := .obj
  [("name", .str "Smart Thermostat"), ("brand", .str "HomeSmart"), ("sku", .str "SKU-1008"),
   ("category", .str "Home Automation"), ("price", .num 129), ("currency", .str "USD"),
   ("stock", .num 180), ("description", .str "Optimize home temperature"),
   ("features", .str "Remote Control, Scheduling"), ("rating", .num 4),
   ("reviewsCount", .num 760), ("tags", .arr [.str "thermostat", .str "smart home"]),
   ("imageUrl", .str "https://example.com/images/products/SKU-1008.jpg"),
   ("manufacturer", .str "HomeSmart Inc."), ("model", .str "HS-THERMO-2023"),
   ("releaseDate", .str "2023-08-01"), ("warranty", .str "2 years"),
   ("dimensions", .obj [("weight", .str "300g"), ("width", .str "10cm"),
     ("height", .str "15cm"), ("depth", .str "3cm")]),
   ("color", .str "White"), ("material", .str "Plastic and Metal"), ("origin", .str "USA")]

/-- Fixture: a create payload violating the schema in several fields. -/
def invalidBody : Json := .obj [("name", .num 3), ("price", .str "cheap")]

/-- Fixture: the product obtained by validating validBody. -/
def validParsed : Product :=
  { id := none, name := "Smart Thermostat", brand := "HomeSmart", sku := "SKU-1008",
    category := "Home Automation", price := 129, currency := "USD", stock := 180,
    description := "Optimize home temperature",
    features := "Remote Control, Scheduling", rating := 4, reviewsCount := 760,
    tags := ["thermostat", "smart home"],
    imageUrl := "https://example.com/images/products/SKU-1008.jpg",
    manufacturer := "HomeSmart Inc.", model := "HS-THERMO-2023",
    releaseDate := "2023-08-01", warranty := "2 years",
    dimensions := some ⟨"300g", "10cm", "15cm", "3cm"⟩, color := "White",
    material := "Plastic and Metal", origin := "USA", descriptionVector := none,
    imageVector := none, tagsVector := none, featuresVector := none,
    dimensionsVector := none }


lemma isHexDigit_hexChar_of_lt {n : Nat} (h : n < 16) :
    isHexDigit (hexChar n) = true := by
  interval_cases n <;> decide

lemma isHexDigit_byteHexHi (b : Nat) : isHexDigit (byteHexHi b) = true :=
  isHexDigit_hexChar_of_lt (Nat.mod_lt _ (by omega))

lemma isHexDigit_byteHexLo (b : Nat) : isHexDigit (byteHexLo b) = true :=
  isHexDigit_hexChar_of_lt (Nat.mod_lt _ (by omega))

lemma isHexDigit_variantChar (b : Nat) :
    isHexDigit (hexChar (8 + b % 64 / 16)) = true := by
  have h : b % 64 < 64 := Nat.mod_lt _ (by omega)
  exact isHexDigit_hexChar_of_lt (by omega)

/-- Any sixteen input bytes produce a string accepted by the UUID shape
validator. -/
theorem isUUID_uuidv4 (b0 b1 b2 b3 b4 b5 b6 b7 b8 b9 b10 b11 b12 b13 b14 b15 : Nat) :
    isUUID (uuidv4 [b0, b1, b2, b3, b4, b5, b6, b7, b8, b9, b10, b11, b12, b13, b14, b15]) = true := by
  simp [uuidv4, isUUID, isHexDigit_byteHexHi, isHexDigit_byteHexLo,
    isHexDigit_variantChar, List.all]
  decide

lemma errsOf_ap {α β : Type} (f : Except (List Issue) (α → β)) (x : Except (List Issue) α) :
    errsOf (ap f x) = errsOf f ++ errsOf x := by
  cases f <;> cases x <;> simp [ap, errsOf]

lemma ap_ok_iff {α β : Type} (f : Except (List Issue) (α → β)) (x : Except (List Issue) α)
    (b : β) : ap f x = .ok b ↔ ∃ g a, f = .ok g ∧ x = .ok a ∧ b = g a := by
  cases f <;> cases x <;> simp [ap] <;> tauto

lemma vecStepsFeat_embedOk (ev : Json → List ℚ) (p : Product) (log : List Json) :
    vecStepsFeat (fun j => .ok (ev j)) p log =
      (.ok { p with featuresVector :=
          if p.features ≠ "" then some (ev (.str p.features)) else p.featuresVector },
        log ++ if p.features ≠ "" then [.str p.features] else []) := by
  obtain ⟨i1, n1, b1, s1, c1, p1, u1, k1, d1, f1, r1, w1, t1, m1, a1, o1, e1, y1, g1, l1, q1, z1, v1, v2, v3, v4, v5⟩ := p
  by_cases h : f1 = "" <;> simp [vecStepsFeat, h]

lemma vecStepsTags_embedOk (ev : Json → List ℚ) (p : Product) (log : List Json) :
    vecStepsTags (fun j => .ok (ev j)) p log =
      (.ok { p with
          tagsVector :=
            if p.tags ≠ [] then some (ev (.str (String.intercalate " " p.tags)))
            else p.tagsVector,
          featuresVector :=
            if p.features ≠ "" then some (ev (.str p.features)) else p.featuresVector },
        log ++ ((if p.tags ≠ [] then [.str (String.intercalate " " p.tags)] else []) ++
          (if p.features ≠ "" then [.str p.features] else []))) := by
  obtain ⟨i1, n1, b1, s1, c1, p1, u1, k1, d1, f1, r1, w1, t1, m1, a1, o1, e1, y1, g1, l1, q1, z1, v1, v2, v3, v4, v5⟩ := p
  by_cases h : t1 = [] <;> simp [vecStepsTags, h, vecStepsFeat_embedOk]

lemma vecSteps_embedOk (ev : Json → List ℚ) (p : Product) :
    vecSteps (fun j => .ok (ev j)) p = (.ok (enrichVectors ev p), embedLogOf p) := by
  obtain ⟨i1, n1, b1, s1, c1, p1, u1, k1, d1, f1, r1, w1, t1, m1, a1, o1, e1, y1, g1, l1, q1, z1, v1, v2, v3, v4, v5⟩ := p
  by_cases h : d1 = "" <;>
    simp [vecSteps, h, vecStepsTags_embedOk, enrichVectors, embedLogOf]

lemma vecStepsFeat_ok_calls (embed : Json → Except String (List ℚ)) (p : Product)
    (log : List Json) (r : Product) (log2 : List Json)
    (h : vecStepsFeat embed p log = (.ok r, log2))
    (hlog : ∀ j ∈ log, ∃ v, embed j = .ok v) :
    ∀ j ∈ log2, ∃ v, embed j = .ok v := by
  unfold vecStepsFeat at h
  by_cases hf : p.features = ""
  · simp [hf] at h
    exact h.2 ▸ hlog
  · rw [if_pos hf] at h
    cases hemb : embed (.str p.features) with
    | error e => rw [hemb] at h; simp at h
    | ok fv =>
      rw [hemb] at h
      simp at h
      intro j hj
      rw [← h.2] at hj
      rcases List.mem_append.1 hj with h1 | h2
      · exact hlog j h1
      · rw [List.mem_singleton] at h2
        exact h2 ▸ ⟨fv, hemb⟩

lemma vecStepsTags_ok_calls (embed : Json → Except String (List ℚ)) (p : Product)
    (log : List Json) (r : Product) (log2 : List Json)
    (h : vecStepsTags embed p log = (.ok r, log2))
    (hlog : ∀ j ∈ log, ∃ v, embed j = .ok v) :
    ∀ j ∈ log2, ∃ v, embed j = .ok v := by
  unfold vecStepsTags at h
  by_cases ht : p.tags = []
  · simp [ht] at h
    exact vecStepsFeat_ok_calls _ _ _ _ _ h hlog
  · rw [if_pos ht] at h
    cases hemb : embed (.str (String.intercalate " " p.tags)) with
    | error e => rw [hemb] at h; simp at h
    | ok tv =>
      rw [hemb] at h
      refine vecStepsFeat_ok_calls _ _ _ _ _ h ?_
      intro j hj
      rcases List.mem_append.1 hj with h1 | h2
      · exact hlog j h1
      · rw [List.mem_singleton] at h2
        exact h2 ▸ ⟨tv, hemb⟩

lemma vecSteps_ok_calls (embed : Json → Except String (List ℚ)) (p : Product)
    (r : Product) (log2 : List Json)
    (h : vecSteps embed p = (.ok r, log2)) :
    ∀ j ∈ log2, ∃ v, embed j = .ok v := by
  unfold vecSteps at h
  by_cases hd : p.description = ""
  · simp [hd] at h
    exact vecStepsTags_ok_calls _ _ _ _ _ h (by simp)
  · rw [if_pos hd] at h
    cases hemb : embed (.str p.description) with
    | error e => rw [hemb] at h; simp at h
    | ok dv =>
      rw [hemb] at h
      refine vecStepsTags_ok_calls _ _ _ _ _ h ?_
      intro j hj
      rw [List.mem_singleton] at hj
      exact hj ▸ ⟨dv, hemb⟩

namespace CosmosDB

lemma inv_initialState : Inv initialState := Or.inl ⟨rfl, rfl⟩

lemma inv_dbStep (s : DBState) (e : DBEvent) (hs : Inv s) :
    Inv (dbStep s e).1 ∧
      ∀ r, (dbStep s e).2 = some r → r = .immediate ∨ r = .awaits 0 := by
  cases e with
  | call =>
    unfold dbStep initializeStep
    by_cases hi : s.initializedFlag
    · refine ⟨by simpa [hi] using hs, ?_⟩
      intro r hr
      simp [hi] at hr
      exact Or.inl hr.symm
    · cases hid : s.initializingId with
      | some pid =>
        have h0 : pid = 0 := by
          rcases hs with ⟨-, h2⟩ | ⟨-, h2⟩
          · rw [hid] at h2; cases h2
          · rw [hid] at h2; injection h2
        refine ⟨by simpa [hi, hid] using hs, ?_⟩
        intro r hr
        simp [hi, hid] at hr
        exact Or.inr (by rw [← hr, h0])
      | none =>
        have h0 : s.initCalls = 0 := by
          rcases hs with ⟨h1, -⟩ | ⟨-, h2⟩
          · exact h1
          · rw [hid] at h2; cases h2
        refine ⟨?_, ?_⟩
        · simp [hi, hid]
          exact Or.inr (by simp [h0])
        · intro r hr
          simp [hi, hid] at hr
          exact Or.inr (by rw [← hr, h0])
  | complete =>
    refine ⟨?_, by intro r hr; simp [dbStep] at hr⟩
    unfold dbStep
    by_cases hid : s.initializingId.isSome <;> simpa [hid] using hs
  | fail =>
    exact ⟨hs, by intro r hr; simp [dbStep] at hr⟩

lemma inv_dbRun (s : DBState) (evts : List DBEvent) (hs : Inv s) :
    Inv (dbRun s evts).1 ∧
      ∀ r ∈ (dbRun s evts).2, r = .immediate ∨ r = .awaits 0 := by
  induction evts generalizing s with
  | nil => exact ⟨hs, by simp [dbRun]⟩
  | cons e rest ih =>
    obtain ⟨h1, h2⟩ := inv_dbStep s e hs
    obtain ⟨h3, h4⟩ := ih _ h1
    refine ⟨by simpa [dbRun] using h3, ?_⟩
    intro r hr
    simp only [dbRun, List.mem_append] at hr
    rcases hr with hr | hr
    · cases hstep : (dbStep s e).2 with
      | none => rw [hstep] at hr; simp at hr
      | some r2 =>
        rw [hstep] at hr
        simp at hr
        exact hr ▸ h2 r2 hstep
    · exact h4 r hr

end CosmosDB

lemma parseStrElems_ok_iff (name : String) (i : Nat) (xs : List Json) (ss : List String) :
    parseStrElems name i xs = .ok ss ↔ xs = ss.map Json.str := by
  induction xs generalizing i ss with
  | nil => cases ss <;> simp [parseStrElems]
  | cons j rest ih =>
    cases htail : parseStrElems name (i + 1) rest with
    | ok ts =>
      cases ss with
      | nil => cases j <;> simp [parseStrElems, ap, htail]
      | cons s2 ts2 => cases j <;> simp [parseStrElems, ap, htail, ← ih (i + 1)]
    | error es =>
      cases ss with
      | nil => cases j <;> simp [parseStrElems, ap, htail]
      | cons s2 ts2 => cases j <;> simp [parseStrElems, ap, htail, ← ih (i + 1)]

lemma tagsSafeParse_ok_iff (j : Json) (ss : List String) :
    tagsSafeParse j = .ok ss ↔
      ∃ fs, j = .obj fs ∧ lookupField fs "tags" = some (.arr (ss.map Json.str)) := by
  cases j with
  | obj fs =>
    simp only [tagsSafeParse]
    cases hlk : lookupField fs "tags" with
    | none => simp [reqStrArray, hlk]
    | some v =>
      cases v <;>
        simp [reqStrArray, hlk, parseStrElems_ok_iff]
  | null => simp [tagsSafeParse]
  | undefined => simp [tagsSafeParse]
  | bool b => simp [tagsSafeParse]
  | num q => simp [tagsSafeParse]
  | str s => simp [tagsSafeParse]
  | arr xs => simp [tagsSafeParse]

/-- C1 (amended).  The claim asserts every search handler answers HTTP 500
with a generic single-message body whenever the embedding call or the store
call fails.  What the code does: a store failure indeed yields the generic
500 response, but an embedding failure escapes all three search handlers
because the embedding await stands outside the try block, so the handler
terminates without sending any response (modelled as response none). -/
theorem C1_amended_upstream_failures :
    (∀ (embed : Json → Except String (List ℚ))
        (search : List ℚ → ℚ → Except CosmosErr (List Json)) (body : Json) (e : String),
        embed (getField body "queryDescription") = .error e →
        (searchProductsByDescriptionVector embed search body).response = none) ∧
    (∀ (embed : Json → Except String (List ℚ))
        (search : List ℚ → ℚ → Except CosmosErr (List Json)) (body : Json)
        (v : List ℚ) (ce : CosmosErr),
        embed (getField body "queryDescription") = .ok v →
        search v (topResultsOf (getField body "top")) = .error ce →
        (searchProductsByDescriptionVector embed search body).response =
          some (.failure (.message "Internal Server Error"))) ∧
    (∀ (embed : Json → Except String (List ℚ))
        (search : List ℚ → ℚ → Except CosmosErr (List Json)) (body : Json)
        (ts : List String) (e : String),
        tagsSafeParse (.obj [("tags", getField body "queryTags")]) = .ok ts →
        embed (.str (String.intercalate " " ts)) = .error e →
        (searchProductsByTagsVector embed search body).response = none) ∧
    (∀ (embed : Json → Except String (List ℚ))
        (search : List ℚ → ℚ → Except CosmosErr (List Json)) (body : Json)
        (ts : List String) (v : List ℚ) (ce : CosmosErr),
        tagsSafeParse (.obj [("tags", getField body "queryTags")]) = .ok ts →
        embed (.str (String.intercalate " " ts)) = .ok v →
        search v (topResultsOf (getField body "top")) = .error ce →
        (searchProductsByTagsVector embed search body).response =
          some (.failure (.message "Internal Server Error"))) ∧
    (∀ (embed : Json → Except String (List ℚ))
        (search : List ℚ → ℚ → Except CosmosErr (List Json)) (body : Json)
        (ts : List String) (e : String),
        featuresSafeParse (.obj [("tags", getField body "queryFeatures")]) = .ok ts →
        embed (.str (String.intercalate " " ts)) = .error e →
        (searchProductsByFeaturesVector embed search body).response = none) ∧
    (∀ (embed : Json → Except String (List ℚ))
        (search : List ℚ → ℚ → Except CosmosErr (List Json)) (body : Json)
        (ts : List String) (v : List ℚ) (ce : CosmosErr),
        featuresSafeParse (.obj [("tags", getField body "queryFeatures")]) = .ok ts →
        embed (.str (String.intercalate " " ts)) = .ok v →
        search v (topResultsOf (getField body "top")) = .error ce →
        (searchProductsByFeaturesVector embed search body).response =
          some (.failure (.message "Internal Server Error"))) ∧
    (∀ b, (SearchResp.failure b).status = 500) := by
  refine ⟨?_, ?_, ?_, ?_, ?_, ?_, fun b => rfl⟩
  · intro embed search body e he
    simp [searchProductsByDescriptionVector, he]
  · intro embed search body v ce he hs
    simp [searchProductsByDescriptionVector, he, hs]
  · intro embed search body ts e hp he
    simp [searchProductsByTagsVector, hp, he]
  · intro embed search body ts v ce hp he hs
    simp [searchProductsByTagsVector, hp, he, hs]
  · intro embed search body ts e hp he
    simp [searchProductsByFeaturesVector, hp, he]
  · intro embed search body ts v ce hp he hs
    simp [searchProductsByFeaturesVector, hp, he, hs]

/-- C1 witness: at a concrete request, a failing embedding oracle leaves the
handler without a response, while a failing store oracle yields the generic
500 failure response. -/
theorem C1_witness :
    (searchProductsByDescriptionVector embedFailO searchOkO searchBody1).response = none ∧
    (searchProductsByDescriptionVector embedOkO searchFailO searchBody1).response =
      some (.failure (.message "Internal Server Error")) := by
  constructor
  · exact C1_amended_upstream_failures.1 embedFailO searchOkO searchBody1
      "network failure" rfl
  · exact C1_amended_upstream_failures.2.1 embedOkO searchFailO searchBody1
      [1] ⟨503⟩ rfl rfl

/-- C1 counterexample: at a concrete description search request whose
embedding call fails, the handler sends no response at all, refuting the
claim that it always responds with HTTP 500. -/
theorem C1_counterexample :
    (searchProductsByDescriptionVector embedFailO searchOkO searchBody1).response = none ∧
    ¬∃ r, (searchProductsByDescriptionVector embedFailO searchOkO searchBody1).response =
      some r := by
  have h : (searchProductsByDescriptionVector embedFailO searchOkO searchBody1).response =
      none := rfl
  exact ⟨h, by simp [h]⟩

/-- C2 (amended).  The claim asserts the description search handler validates
the raw query to be a string before embedding and validates the embedding
result before querying the store.  What the code does: no validation at all —
whatever value sits under queryDescription is sent to the embedding client,
and whenever that call succeeds its result is sent to the store unchecked. -/
theorem C2_amended_no_validation :
    (∀ (embed : Json → Except String (List ℚ))
        (search : List ℚ → ℚ → Except CosmosErr (List Json)) (body : Json) (v : List ℚ),
        embed (getField body "queryDescription") = .ok v →
        (searchProductsByDescriptionVector embed search body).embedCalls =
            [getField body "queryDescription"] ∧
          (searchProductsByDescriptionVector embed search body).storeCalls =
            [(v, topResultsOf (getField body "top"))]) ∧
    (∀ (embed : Json → Except String (List ℚ))
        (search : List ℚ → ℚ → Except CosmosErr (List Json)) (body : Json) (e : String),
        embed (getField body "queryDescription") = .error e →
        (searchProductsByDescriptionVector embed search body).embedCalls =
          [getField body "queryDescription"]) := by
  constructor
  · intro embed search body v he
    cases hs : search v (topResultsOf (getField body "top")) <;>
      simp [searchProductsByDescriptionVector, he, hs]
  · intro embed search body e he
    simp [searchProductsByDescriptionVector, he]

/-- C2 witness: a non-string query value is embedded and the store is queried
with the raw embedding result. -/
theorem C2_witness :
    (searchProductsByDescriptionVector embedOkO searchOkO searchBody2).embedCalls =
        [Json.num 5] ∧
      (searchProductsByDescriptionVector embedOkO searchOkO searchBody2).storeCalls =
        [([1], 10)] :=
  C2_amended_no_validation.1 embedOkO searchOkO searchBody2 [1] rfl

/-- C2 counterexample: a request whose queryDescription is the number 5 (not a
string) still reaches the store, refuting the claim that inputs failing the
string validation never reach the store. -/
theorem C2_counterexample :
    (searchProductsByDescriptionVector embedOkO searchOkO searchBody2).embedCalls =
        [Json.num 5] ∧
      (searchProductsByDescriptionVector embedOkO searchOkO searchBody2).storeCalls ≠ [] := by
  have h : (searchProductsByDescriptionVector embedOkO searchOkO searchBody2).storeCalls =
      [([1], 10)] := rfl
  exact ⟨rfl, by simp [h]⟩

/-- C3 (amended).  The claim asserts both the create handler and the
get-by-id handler answer HTTP 400 with a per-field dotted-path error list.
What the code does: the create handler indeed reports every violated field
(the issue list of the validator is the concatenation of the checks of all
27 schema fields, accumulated without stopping) and issues no embedding or
store call; the get-by-id handler also issues no store call but answers 400
with one fixed single-message body, not a per-field list. -/
theorem C3_amended_validation_responses :
    (∀ (body : Json) (issues : List Issue) (embed : Json → Except String (List ℚ))
        (addP : Product → Except CosmosErr Product) (bytes : List Nat),
        productSafeParse body = .error issues →
        createProduct embed addP bytes body =
            ⟨some (.invalid (.fieldErrors (renderIssues issues))), [], []⟩ ∧
          (CreateResp.invalid (.fieldErrors (renderIssues issues))).status = 400) ∧
    (∀ fs, errsOf (productSafeParse (.obj fs)) =
      errsOf (optUuid fs "id") ++
        (errsOf (reqStr [] fs "name") ++
          (errsOf (reqStr [] fs "brand") ++
            (errsOf (reqStr [] fs "sku") ++
              (errsOf (reqStr [] fs "category") ++
                (errsOf (reqNum fs "price") ++
                  (errsOf (reqStr [] fs "currency") ++
                    (errsOf (reqNum fs "stock") ++
                      (errsOf (reqStr [] fs "description") ++
                        (errsOf (reqStr [] fs "features") ++
                          (errsOf (reqNum fs "rating") ++
                            (errsOf (reqNum fs "reviewsCount") ++
                              (errsOf (reqStrArray fs "tags") ++
                                (errsOf (reqUrl fs "imageUrl") ++
                                  (errsOf (reqStr [] fs "manufacturer") ++
                                    (errsOf (reqStr [] fs "model") ++
                                      (errsOf (reqStr [] fs "releaseDate") ++
                                        (errsOf (reqStr [] fs "warranty") ++
                                          (errsOf (optDims fs) ++
                                            (errsOf (reqStr [] fs "color") ++
                                              (errsOf (reqStr [] fs "material") ++
                                                (errsOf (reqStr [] fs "origin") ++
                                                  (errsOf (optNumArray fs "descriptionVector") ++
                                                    (errsOf (optNumArray fs "imageVector") ++
                                                      (errsOf (optNumArray fs "tagsVector") ++
                                                        (errsOf (optNumArray fs "featuresVector") ++
                                                          errsOf (optNumArray fs "dimensionsVector"))))))))))))))))))))))))))) ∧
    (∀ (id : String) (readResult : Except CosmosErr (Option Product)),
        isUUID id = false →
        getProductById readResult id =
            ⟨some (.badRequest (.message "Invalid product ID, should be a valid UUID")),
              false⟩ ∧
          (GetResp.badRequest
            (.message "Invalid product ID, should be a valid UUID")).status = 400) := by
  refine ⟨?_, ?_, ?_⟩
  · intro body issues embed addP bytes h
    exact ⟨by simp [createProduct, h], rfl⟩
  · intro fs
    simp only [productSafeParse, errsOf_ap, List.append_assoc]
    simp [errsOf]
  · intro id readResult h
    exact ⟨by simp [getProductById, productIDSafeParse, h], rfl⟩

/-- C3 witness: a concrete invalid create body yields the 400 per-field
response with no embedding or store call, and a concrete malformed id yields
the 400 single-message response with no store call. -/
theorem C3_witness :
    createProduct embedOkO addOkO seedBytes invalidBody =
        ⟨some (.invalid (.fieldErrors
          (renderIssues (errsOf (productSafeParse invalidBody))))), [], []⟩ ∧
      getProductById (.ok none) "abc" =
        ⟨some (.badRequest (.message "Invalid product ID, should be a valid UUID")),
          false⟩ := by
  constructor
  · exact (C3_amended_validation_responses.1 invalidBody
      (errsOf (productSafeParse invalidBody)) embedOkO addOkO seedBytes rfl).1
  · exact (C3_amended_validation_responses.2.2 "abc" (.ok none) rfl).1

/-- C3 counterexample: on the malformed id "abc" the get-by-id handler sends
a single fixed message, not a body reporting the violated field with a dotted
path, refuting the claim for the get-by-id path. -/
theorem C3_counterexample :
    (getProductById (.ok none) "abc").response =
        some (.badRequest (.message "Invalid product ID, should be a valid UUID")) ∧
      ¬∃ es, (getProductById (.ok none) "abc").response =
        some (.badRequest (.fieldErrors es)) := by
  have h : (getProductById (.ok none) "abc").response =
      some (.badRequest (.message "Invalid product ID, should be a valid UUID")) := rfl
  exact ⟨h, by simp [h]⟩

/-- C4 (confirmed).  During creation, if any embedding call the handler issued
failed, then the store write addProduct is never invoked: the create request
aborts with no partial write. -/
theorem C4_embed_failure_no_store_write (embed : Json → Except String (List ℚ))
    (addP : Product → Except CosmosErr Product) (bytes : List Nat) (body : Json)
    (j : Json) (e : String)
    (hmem : j ∈ (createProduct embed addP bytes body).embedCalls)
    (hfail : embed j = .error e) :
    (createProduct embed addP bytes body).storeCalls = [] := by
  cases hp : productSafeParse body with
  | error issues => simp [createProduct, hp]
  | ok parsed =>
    simp only [createProduct, hp] at hmem ⊢
    rcases hv : vecSteps embed
        (if strFalsy parsed.id = true then { parsed with id := some (uuidv4 bytes) }
         else parsed) with ⟨res, log⟩
    cases res with
    | error e2 => simp
    | ok r =>
      exfalso
      rw [hv] at hmem
      simp only at hmem
      have hj : j ∈ log := by
        cases haddP : addP r with
        | ok c => rw [haddP] at hmem; simpa using hmem
        | error c => rw [haddP] at hmem; simpa using hmem
      obtain ⟨v, hok⟩ := vecSteps_ok_calls embed _ r log hv j hj
      rw [hok] at hfail
      cases hfail

/-- C4 witness: with a concrete valid body and an embedding oracle that fails,
the description text is among the issued embedding calls, that call failed,
and no store write happens. -/
theorem C4_witness :
    Json.str "Optimize home temperature" ∈
        (createProduct embedFailO addOkO seedBytes validBody).embedCalls ∧
      embedFailO (Json.str "Optimize home temperature") = .error "network failure" ∧
      (createProduct embedFailO addOkO seedBytes validBody).storeCalls = [] := by
  have h1 : (createProduct embedFailO addOkO seedBytes validBody).embedCalls =
      [Json.str "Optimize home temperature"] := rfl
  have h2 : Json.str "Optimize home temperature" ∈
      (createProduct embedFailO addOkO seedBytes validBody).embedCalls := by
    simp [h1]
  exact ⟨h2, rfl,
    C4_embed_failure_no_store_write embedFailO addOkO seedBytes validBody
      (Json.str "Optimize home temperature") "network failure" h2 rfl⟩

/-- C5 (confirmed).  For a valid payload without identifier, the create
handler assigns a freshly generated well-formed UUID as the id, and the record
passed to the store (which, echoed by the store per its contract, is also the
record of the 201 response) keeps every non-vector field of the input payload
unchanged. -/
theorem C5_create_assigns_uuid_preserves_fields
    (ev : Json → List ℚ) (addP : Product → Except CosmosErr Product)
    (b0 b1 b2 b3 b4 b5 b6 b7 b8 b9 b10 b11 b12 b13 b14 b15 : Nat)
    (body : Json) (q : Product)
    (hparse : productSafeParse body = .ok q)
    (hid : strFalsy q.id = true)
    (hstore : ∀ p, addP p = .ok p) :
    ∃ stored,
      (createProduct (fun j => .ok (ev j)) addP
          [b0, b1, b2, b3, b4, b5, b6, b7, b8, b9, b10, b11, b12, b13, b14, b15]
          body).storeCalls = [stored] ∧
      (createProduct (fun j => .ok (ev j)) addP
          [b0, b1, b2, b3, b4, b5, b6, b7, b8, b9, b10, b11, b12, b13, b14, b15]
          body).response = some (.created stored) ∧
      stored.id = some (uuidv4
        [b0, b1, b2, b3, b4, b5, b6, b7, b8, b9, b10, b11, b12, b13, b14, b15]) ∧
      isUUID (uuidv4
        [b0, b1, b2, b3, b4, b5, b6, b7, b8, b9, b10, b11, b12, b13, b14, b15]) = true ∧
      stored.nonVectorFields = q.nonVectorFields := by
  refine ⟨enrichVectors ev
    { q with id := some (uuidv4
        [b0, b1, b2, b3, b4, b5, b6, b7, b8, b9, b10, b11, b12, b13, b14, b15]) },
    ?_, ?_, rfl,
    isUUID_uuidv4 b0 b1 b2 b3 b4 b5 b6 b7 b8 b9 b10 b11 b12 b13 b14 b15, rfl⟩
  · simp [createProduct, hparse, hid, vecSteps_embedOk, hstore]
  · simp [createProduct, hparse, hid, vecSteps_embedOk, hstore]

/-- C5 witness: creating the concrete valid payload with the deterministic
byte seed stores and returns a record whose id is the generated UUID, which
the UUID shape validator accepts. -/
theorem C5_witness :
    productSafeParse validBody = .ok validParsed ∧
    strFalsy validParsed.id = true ∧
    ∃ stored,
      (createProduct (fun j => Except.ok (evConst j)) addOkO seedBytes
          validBody).storeCalls = [stored] ∧
      (createProduct (fun j => Except.ok (evConst j)) addOkO seedBytes
          validBody).response = some (.created stored) ∧
      stored.id = some (uuidv4 seedBytes) ∧
      isUUID (uuidv4 seedBytes) = true ∧
      stored.nonVectorFields = validParsed.nonVectorFields := by
  refine ⟨rfl, rfl, ?_⟩
  exact C5_create_assigns_uuid_preserves_fields evConst addOkO
    0 1 2 3 4 5 6 7 8 9 10 11 12 13 14 15 validBody validParsed rfl rfl
    (fun p => rfl)

/-- C6 (confirmed).  During creation of a valid product, the description
vector is computed and attached exactly when the description text is
non-empty, the tags vector exactly when the tags list is non-empty (its
embedding input being the tags joined with single spaces), and the features
vector exactly when the features text is non-empty; each absent case leaves
the field as it arrived in the payload. -/
theorem C6_vectors_iff_nonempty
    (ev : Json → List ℚ) (addP : Product → Except CosmosErr Product)
    (bytes : List Nat) (body : Json) (q : Product)
    (hparse : productSafeParse body = .ok q) :
    ∃ stored,
      (createProduct (fun j => .ok (ev j)) addP bytes body).storeCalls = [stored] ∧
      (createProduct (fun j => .ok (ev j)) addP bytes body).embedCalls =
        ((if q.description ≠ "" then [Json.str q.description] else []) ++
          ((if q.tags ≠ [] then [Json.str (String.intercalate " " q.tags)] else []) ++
            (if q.features ≠ "" then [Json.str q.features] else []))) ∧
      stored.descriptionVector =
        (if q.description ≠ "" then some (ev (Json.str q.description))
         else q.descriptionVector) ∧
      stored.tagsVector =
        (if q.tags ≠ [] then some (ev (Json.str (String.intercalate " " q.tags)))
         else q.tagsVector) ∧
      stored.featuresVector =
        (if q.features ≠ "" then some (ev (Json.str q.features))
         else q.featuresVector) := by
  by_cases hid : strFalsy q.id = true
  · refine ⟨enrichVectors ev { q with id := some (uuidv4 bytes) }, ?_, ?_, rfl, rfl, rfl⟩
    · cases haddP : addP (enrichVectors ev { q with id := some (uuidv4 bytes) }) <;>
        simp [createProduct, hparse, hid, vecSteps_embedOk, haddP]
    · cases haddP : addP (enrichVectors ev { q with id := some (uuidv4 bytes) }) <;>
        simp [createProduct, hparse, hid, vecSteps_embedOk, embedLogOf, haddP]
  · refine ⟨enrichVectors ev q, ?_, ?_, rfl, rfl, rfl⟩
    · cases haddP : addP (enrichVectors ev q) <;>
        simp [createProduct, hparse, hid, vecSteps_embedOk, haddP]
    · cases haddP : addP (enrichVectors ev q) <;>
        simp [createProduct, hparse, hid, vecSteps_embedOk, embedLogOf, haddP]

/-- C6 witness: creating the concrete valid payload issues exactly the three
embedding calls (description text, space-joined tags, features text) and the
stored record carries all three computed vectors. -/
theorem C6_witness :
    ∃ stored,
      (createProduct (fun j => Except.ok (evConst j)) addOkO seedBytes
          validBody).storeCalls = [stored] ∧
      (createProduct (fun j => Except.ok (evConst j)) addOkO seedBytes
          validBody).embedCalls =
        [Json.str "Optimize home temperature", Json.str "thermostat smart home",
          Json.str "Remote Control, Scheduling"] ∧
      stored.descriptionVector = some [1] ∧
      stored.tagsVector = some [1] ∧
      stored.featuresVector = some [1] :=
  C6_vectors_iff_nonempty evConst addOkO seedBytes validBody validParsed rfl

/-- C7 (confirmed).  In every search handler the top bound passed to the
store equals the top of the request when that is a positive integer, and 10
in every other case: omitted or undefined, zero, negative, fractional, or not
a number at all. -/
theorem C7_top_bound :
    (∀ q : ℚ, q.den = 1 → 0 < q → topResultsOf (.num q) = q) ∧
    (∀ q : ℚ, q.den ≠ 1 ∨ ¬0 < q → topResultsOf (.num q) = 10) ∧
    (∀ t : Json, (∀ q, t ≠ .num q) → topResultsOf t = 10) ∧
    (∀ (embed : Json → Except String (List ℚ))
        (search : List ℚ → ℚ → Except CosmosErr (List Json)) (body : Json) (v : List ℚ),
        embed (getField body "queryDescription") = .ok v →
        (searchProductsByDescriptionVector embed search body).storeCalls =
          [(v, topResultsOf (getField body "top"))]) ∧
    (∀ (embed : Json → Except String (List ℚ))
        (search : List ℚ → ℚ → Except CosmosErr (List Json)) (body : Json)
        (ts : List String) (v : List ℚ),
        tagsSafeParse (.obj [("tags", getField body "queryTags")]) = .ok ts →
        embed (.str (String.intercalate " " ts)) = .ok v →
        (searchProductsByTagsVector embed search body).storeCalls =
          [(v, topResultsOf (getField body "top"))]) ∧
    (∀ (embed : Json → Except String (List ℚ))
        (search : List ℚ → ℚ → Except CosmosErr (List Json)) (body : Json)
        (ts : List String) (v : List ℚ),
        featuresSafeParse (.obj [("tags", getField body "queryFeatures")]) = .ok ts →
        embed (.str (String.intercalate " " ts)) = .ok v →
        (searchProductsByFeaturesVector embed search body).storeCalls =
          [(v, topResultsOf (getField body "top"))]) := by
  refine ⟨?_, ?_, ?_, ?_, ?_, ?_⟩
  · intro q h1 h2
    simp [topResultsOf, truthy, isIntegerJs, gtZeroJs, numOf, h1, h2, h2.ne']
  · intro q h
    rcases h with h | h
    · simp [topResultsOf, isIntegerJs, h]
    · by_cases hq : q = 0
      · simp [topResultsOf, truthy, hq]
      · simp [topResultsOf, truthy, gtZeroJs, isIntegerJs, hq, h]
  · intro t ht
    cases t with
    | num q => exact absurd rfl (ht q)
    | null => simp [topResultsOf, truthy]
    | undefined => simp [topResultsOf, truthy]
    | bool b => simp [topResultsOf, isIntegerJs]
    | str s => simp [topResultsOf, isIntegerJs]
    | arr xs => simp [topResultsOf, isIntegerJs]
    | obj fs => simp [topResultsOf, isIntegerJs]
  · intro embed search body v he
    cases hs : search v (topResultsOf (getField body "top")) <;>
      simp [searchProductsByDescriptionVector, he, hs]
  · intro embed search body ts v hp he
    cases hs : search v (topResultsOf (getField body "top")) <;>
      simp [searchProductsByTagsVector, hp, he, hs]
  · intro embed search body ts v hp he
    cases hs : search v (topResultsOf (getField body "top")) <;>
      simp [searchProductsByFeaturesVector, hp, he, hs]

/-- C7 witness: top 5 is used verbatim, while -3, a missing top and a
non-number top all fall back to 10, also through a concrete handler run. -/
theorem C7_witness :
    topResultsOf (Json.num 5) = 5 ∧
    topResultsOf (Json.num (-3)) = 10 ∧
    topResultsOf Json.undefined = 10 ∧
    (searchProductsByDescriptionVector embedOkO searchOkO searchBody1).storeCalls =
      [([1], 5)] := by
  refine ⟨C7_top_bound.1 5 rfl (by norm_num),
    C7_top_bound.2.1 (-3) (Or.inr (by norm_num)),
    C7_top_bound.2.2.1 Json.undefined (fun q h => Json.noConfusion h), ?_⟩
  exact C7_top_bound.2.2.2.1 embedOkO searchOkO searchBody1 [1] rfl

/-- C8 (confirmed).  The service converts a thrown 404 store error into the
explicit absent signal instead of rethrowing, rethrows every other store
error, passes found and absent read outcomes through, and the handler answers
404 (Product not found) exactly when the service signalled absence for a
well-formed id. -/
theorem C8_absent_signal :
    (∀ e : CosmosErr, e.code = 404 →
        ProductService.getProductById (.error e) = .ok none) ∧
    (∀ e : CosmosErr, e.code ≠ 404 →
        ProductService.getProductById (.error e) = .error e) ∧
    (∀ r, ProductService.getProductById (.ok r) = .ok r) ∧
    (∀ (id : String) (readResult : Except CosmosErr (Option Product)),
        isUUID id = true →
        ((getProductById readResult id).response =
            some (.notFound (.message "Product not found")) ↔
          ProductService.getProductById readResult = .ok none)) ∧
    (GetResp.notFound (.message "Product not found")).status = 404 := by
  refine ⟨?_, ?_, fun r => rfl, ?_, rfl⟩
  · intro e he
    simp [ProductService.getProductById, he]
  · intro e he
    simp [ProductService.getProductById, he]
  · intro id readResult hid
    simp only [getProductById, productIDSafeParse, hid, if_true]
    cases hsvc : ProductService.getProductById readResult with
    | ok r => cases r <;> simp
    | error e => simp

/-- C8 witness: a thrown 404 becomes the absent signal, a thrown 500 is
rethrown, and on a concrete well-formed id with an absent document the
handler answers the 404 not-found response. -/
theorem C8_witness :
    ProductService.getProductById (.error ⟨404⟩) = .ok none ∧
    ProductService.getProductById (.error ⟨500⟩) = .error ⟨500⟩ ∧
    (getProductById (.ok none) "00010203-0405-4607-8809-0a0b0c0d0e0f").response =
      some (.notFound (.message "Product not found")) := by
  refine ⟨C8_absent_signal.1 ⟨404⟩ rfl, C8_absent_signal.2.1 ⟨500⟩ (by decide), ?_⟩
  exact (C8_absent_signal.2.2.2.1 "00010203-0405-4607-8809-0a0b0c0d0e0f"
    (.ok none) rfl).mpr rfl

/-- C9 (confirmed).  Under every interleaving of initialize calls, in-flight
completions and failures, starting from the fresh singleton, at most one
underlying init (database and collection creation) is ever issued; every
caller either returns immediately or awaits the one stored promise (number
0); and a call made once the initialized flag is set returns immediately
without touching the state. -/
theorem C9_single_initialization :
    (∀ evts, (CosmosDB.dbRun CosmosDB.initialState evts).1.initCalls ≤ 1) ∧
    (∀ evts r, r ∈ (CosmosDB.dbRun CosmosDB.initialState evts).2 →
        r = .immediate ∨ r = .awaits 0) ∧
    (∀ s : CosmosDB.DBState, s.initializedFlag = true →
        CosmosDB.initializeStep s = (s, .immediate)) := by
  refine ⟨?_, ?_, ?_⟩
  · intro evts
    obtain ⟨h1, -⟩ := CosmosDB.inv_dbRun _ evts CosmosDB.inv_initialState
    rcases h1 with ⟨h, -⟩ | ⟨h, -⟩ <;> omega
  · intro evts r hr
    exact (CosmosDB.inv_dbRun _ evts CosmosDB.inv_initialState).2 r hr
  · intro s hs
    simp [CosmosDB.initializeStep, hs]

/-- C9 witness: two concurrent first calls followed by completion and a late
call produce one init call, the two early callers await promise 0 and the
late caller returns immediately. -/
theorem C9_witness :
    CosmosDB.InitOutcome.awaits 0 ∈
        (CosmosDB.dbRun CosmosDB.initialState [.call, .call, .complete, .call]).2 ∧
      (CosmosDB.InitOutcome.awaits 0 = .immediate ∨
        CosmosDB.InitOutcome.awaits 0 = .awaits 0) ∧
      (CosmosDB.dbRun CosmosDB.initialState [.call, .call, .complete, .call]).1.initCalls
        ≤ 1 ∧
      CosmosDB.initializeStep ⟨true, some 0, 1⟩ = (⟨true, some 0, 1⟩, .immediate) := by
  have hmem : CosmosDB.InitOutcome.awaits 0 ∈
      (CosmosDB.dbRun CosmosDB.initialState [.call, .call, .complete, .call]).2 := by
    decide
  exact ⟨hmem,
    C9_single_initialization.2.1 [.call, .call, .complete, .call] _ hmem,
    C9_single_initialization.1 [.call, .call, .complete, .call],
    C9_single_initialization.2.2 ⟨true, some 0, 1⟩ rfl⟩

/-- C10 (confirmed).  The tags search validator and the features search
validator are extensionally equal (the source declares two schemas with
identical bodies), and both accept exactly the objects whose tags field is an
array of strings, producing that array of strings as the parsed value. -/
theorem C10_tags_features_schemas_equal :
    (∀ j, tagsSafeParse j = featuresSafeParse j) ∧
    (∀ j ss, tagsSafeParse j = .ok ss ↔
      ∃ fs, j = .obj fs ∧ lookupField fs "tags" = some (.arr (ss.map Json.str))) :=
  ⟨fun j => rfl, tagsSafeParse_ok_iff⟩

/-- C10 witness: on a concrete body both schemas give the same outcome, and
the characterization applies in both directions. -/
theorem C10_witness :
    tagsSafeParse (Json.obj [("tags", Json.arr [Json.str "audio"])]) =
        featuresSafeParse (Json.obj [("tags", Json.arr [Json.str "audio"])]) ∧
      tagsSafeParse (Json.obj [("tags", Json.arr [Json.str "audio"])]) =
        .ok ["audio"] := by
  refine ⟨C10_tags_features_schemas_equal.1 _, ?_⟩
  exact (C10_tags_features_schemas_equal.2 _ ["audio"]).mpr
    ⟨[("tags", Json.arr [Json.str "audio"])], rfl, rfl⟩
